import Mathlib

/-!
Verification development for the FMP MCP server adapter
(src/fmp_mcp_server.py): a shallow embedding of the request
normalizer `fmp_api_request`, the tool catalog param builders, and
theorems settling the specification claims.
-/

set_option maxHeartbeats 1000000

namespace FmpMcp

/-- JSON values, the data exchanged with the upstream API. -/
inductive Json where
  | null : Json
  | bool (b : Bool) : Json
  | num (n : Int) : Json
  | str (s : String) : Json
  | arr (xs : List Json) : Json
  | obj (kvs : List (String × Json)) : Json

/-- A Python dict of query parameters: insertion-ordered association list. -/
abbrev PDict := List (String × Json)

/-- Dictionary lookup: the value at the first occurrence of the key. -/
def dlookup : PDict → String → Option Json
  | [], _ => none
  | (k, v) :: rest, key => if k = key then some v else dlookup rest key

/-- Python dict item assignment `d[k] = v`: replace the value at an
existing key in place, else append the new key at the end. -/
def setKey : PDict → String → Json → PDict
  | [], key, v => [(key, v)]
  | (k, w) :: rest, key, v =>
      if k = key then (k, v) :: rest else (k, w) :: setKey rest key v

/-- The keys of a dict, in order. -/
def dkeys (d : PDict) : List String := d.map Prod.fst

/-- Lookup inside a JSON object; non-objects have no keys. -/
def jsonObjLookup : Json → String → Option Json
  | .obj kvs, key => dlookup kvs key
  | _, _ => none

/-- `FMP_BASE_URL` from the source. -/
def FMP_BASE_URL : String := "https://financialmodelingprep.com/stable"

/-- `DEFAULT_API_KEY = os.environ.get("FMP_API_KEY", "demo")`, as a function
of the (optional) environment value read at startup. -/
def DEFAULT_API_KEY (envKey : Option String) : String :=
  match envKey with
  | some v => v
  | none => "demo"

/-- Python `a or b` on an optional string: `None` and `""` are falsy. -/
def pyOr (a : Option String) (b : String) : String :=
  match a with
  | none => b
  | some s => if s = "" then b else s

/-- Python string truthiness for an `Optional[str]` argument:
truthy iff the value is present and non-empty. -/
def pyTruthyStr : Option String → Bool
  | none => false
  | some s => !(s == "")

/-- `endpoint.lstrip('/')`: drop all leading slash characters. -/
def lstripSlash (s : String) : String :=
  ⟨s.data.dropWhile (fun c => c = '/')⟩

/-- All the ways the single outbound GET of `fmp_api_request` can go,
as observed by the surrounding `try` block:
* `respond status body errText`: the GET completed with an HTTP status;
  `body` is the outcome of parsing the response body as JSON
  (`Except.error` models a JSON decode exception); `errText` models
  `str(e)` of the `HTTPStatusError` that `raise_for_status` would raise;
* `transportFail isTimeout errText`: `httpx.RequestError` was raised by
  the GET (a timeout is one species of transport error, `isTimeout`);
* `otherFail errText`: any other exception was raised. -/
inductive UpstreamEvent where
  | respond (status : Nat) (body : Except String Json) (errText : String)
  | transportFail (isTimeout : Bool) (errText : String)
  | otherFail (errText : String)

/-- The value returned by `fmp_api_request`: either the parsed upstream
JSON body, or the failure dict `{"error": error, "message": message}`. -/
inductive FmpResult where
  | success (body : Json) : FmpResult
  | failure (error message : String) : FmpResult

/-- The outbound request dispatched by `fmp_api_request`: target URL,
query parameters, and the fixed timeout (in time-units). -/
structure FmpRequest where
  url : String
  params : PDict
  timeout : Nat

/-- Shallow embedding of `fmp_api_request(endpoint, params, api_key)`
(src/fmp_mcp_server.py lines 43-64). `defaultKey` is the process-wide
`DEFAULT_API_KEY` value; `upstream` is the behavior of the single
outbound GET. Returns the dispatched request together with the result:

    url = f"{FMP_BASE_URL}/{endpoint.lstrip('/')}"
    params = params.copy() if params else {}
    params["apikey"] = api_key or DEFAULT_API_KEY
    try:
        resp = await client.get(url, params=params, timeout=30.0)
        resp.raise_for_status()
        return resp.json()
    except httpx.HTTPStatusError as e:
        return {"error": f"HTTP error: {e.response.status_code}", "message": str(e)}
    except httpx.RequestError as e:
        return {"error": "Request error", "message": str(e)}
    except Exception as e:
        return {"error": "Unknown error", "message": str(e)}

`raise_for_status` raises `HTTPStatusError` exactly when the status is
not a 2xx success status. -/
def fmp_api_request (defaultKey : String) (endpoint : String)
    (params : Option PDict) (api_key : Option String)
    (upstream : UpstreamEvent) : FmpRequest × FmpResult :=
  let url := FMP_BASE_URL ++ "/" ++ lstripSlash endpoint
  let p0 : PDict := match params with
    | some d => if d.isEmpty then [] else d
    | none => []
  let p := setKey p0 "apikey" (.str (pyOr api_key defaultKey))
  let req : FmpRequest := ⟨url, p, 30⟩
  let res : FmpResult :=
    match upstream with
    | .respond status body errText =>
        if 200 ≤ status ∧ status < 300 then
          match body with
          | .ok j => .success j
          | .error msg => .failure "Unknown error" msg
        else
          .failure ("HTTP error: " ++ toString status) errText
    | .transportFail _ errText => .failure "Request error" errText
    | .otherFail errText => .failure "Unknown error" errText
  (req, res)

/-- What a tool body does when invoked: either delegate to
`fmp_api_request` with an endpoint and a parameter dict (`net`), or
return a fixed value with no outbound call (`static`). -/
inductive ToolAction where
  | net (endpoint : String) (params : PDict) : ToolAction
  | static (value : Json) : ToolAction

/-- The parameter dict a tool action would dispatch (empty for static tools). -/
def ToolAction.paramsOf : ToolAction → PDict
  | .net _ p => p
  | .static _ => []

/-- The endpoint a tool action targets (empty for static tools). -/
def ToolAction.endpointOf : ToolAction → String
  | .net e _ => e
  | .static _ => ""

/-- `company_profile(symbol)` (source line 153). -/
def company_profile (symbol : String) : ToolAction :=
  .net "profile" [("symbol", .str symbol)]

/-- `income_statement(symbol, limit=5, period="annual")` (source line 189). -/
def income_statement (symbol : String) (limit : Int := 5)
    (period : String := "annual") : ToolAction :=
  .net "income-statement"
    [("symbol", .str symbol), ("limit", .num limit), ("period", .str period)]

/-- `balance_sheet(symbol, limit=5, period="annual")` (source line 222). -/
def balance_sheet (symbol : String) (limit : Int := 5)
    (period : String := "annual") : ToolAction :=
  .net "balance-sheet-statement"
    [("symbol", .str symbol), ("limit", .num limit), ("period", .str period)]

/-- `cash_flow(symbol, limit=5, period="annual")` (source line 254). -/
def cash_flow (symbol : String) (limit : Int := 5)
    (period : String := "annual") : ToolAction :=
  .net "cash-flow-statement"
    [("symbol", .str symbol), ("limit", .num limit), ("period", .str period)]

/-- `financial_ratios(symbol, limit=5, period="annual")` (source line 287). -/
def financial_ratios (symbol : String) (limit : Int := 5)
    (period : String := "annual") : ToolAction :=
  .net "ratios"
    [("symbol", .str symbol), ("limit", .num limit), ("period", .str period)]

/-- `historical_price_eod_full(symbol, date_from=None, date_to=None)`
(source lines 320-325): start from `{"symbol": symbol}` and add `from` /
`to` only when the corresponding argument is truthy. -/
def historical_price_eod_full (symbol : String)
    (date_from : Option String := none) (date_to : Option String := none) :
    ToolAction :=
  let params : PDict := [("symbol", .str symbol)]
  let params := if pyTruthyStr date_from then
      setKey params "from" (.str (date_from.getD "")) else params
  let params := if pyTruthyStr date_to then
      setKey params "to" (.str (date_to.getD "")) else params
  .net "historical-price-eod/full" params

/-- `earnings_call_transcript(symbol, year, quarter, limit=None)`
(source lines 357-360): `limit` is added only when it `is not None`. -/
def earnings_call_transcript (symbol : String) (year : Int) (quarter : Int)
    (limit : Option Int := none) : ToolAction :=
  let params : PDict :=
    [("symbol", .str symbol), ("year", .num year), ("quarter", .num quarter)]
  let params := match limit with
    | some l => setKey params "limit" (.num l)
    | none => params
  .net "earning-call-transcript" params

/-- `economic_indicators(name, date_from=None, date_to=None)`
(source lines 392-397). -/
def economic_indicators (name : String) (date_from : Option String := none)
    (date_to : Option String := none) : ToolAction :=
  let params : PDict := [("name", .str name)]
  let params := if pyTruthyStr date_from then
      setKey params "from" (.str (date_from.getD "")) else params
  let params := if pyTruthyStr date_to then
      setKey params "to" (.str (date_to.getD "")) else params
  .net "economic-indicators" params

/-- `economic_calendar(date_from=None, date_to=None)` (source lines 425-430):
starts from the empty dict. -/
def economic_calendar (date_from : Option String := none)
    (date_to : Option String := none) : ToolAction :=
  let params : PDict := []
  let params := if pyTruthyStr date_from then
      setKey params "from" (.str (date_from.getD "")) else params
  let params := if pyTruthyStr date_to then
      setKey params "to" (.str (date_to.getD "")) else params
  .net "economic-calendar" params

/-- `stock_news_latest(page=0, limit=20, date_from=None, date_to=None)`
(source lines 459-464). -/
def stock_news_latest (page : Int := 0) (limit : Int := 20)
    (date_from : Option String := none) (date_to : Option String := none) :
    ToolAction :=
  let params : PDict := [("page", .num page), ("limit", .num limit)]
  let params := if pyTruthyStr date_from then
      setKey params "from" (.str (date_from.getD "")) else params
  let params := if pyTruthyStr date_to then
      setKey params "to" (.str (date_to.getD "")) else params
  .net "news/stock-latest" params

/-- `stock_news_search(symbols, page=0, limit=20, date_from=None,
date_to=None)` (source lines 494-499). -/
def stock_news_search (symbols : String) (page : Int := 0) (limit : Int := 20)
    (date_from : Option String := none) (date_to : Option String := none) :
    ToolAction :=
  let params : PDict :=
    [("symbols", .str symbols), ("page", .num page), ("limit", .num limit)]
  let params := if pyTruthyStr date_from then
      setKey params "from" (.str (date_from.getD "")) else params
  let params := if pyTruthyStr date_to then
      setKey params "to" (.str (date_to.getD "")) else params
  .net "news/stock" params

/-- `insider_trading_latest(page=0, limit=100, date=None)`
(source lines 529-532). -/
def insider_trading_latest (page : Int := 0) (limit : Int := 100)
    (date : Option String := none) : ToolAction :=
  let params : PDict := [("page", .num page), ("limit", .num limit)]
  let params := if pyTruthyStr date then
      setKey params "date" (.str (date.getD "")) else params
  .net "insider-trading/latest" params

/-- `ping()` (source lines 536-538): returns
`{"ok": True, "base_url": FMP_BASE_URL}` with no outbound call. -/
def ping : ToolAction :=
  .static (.obj [("ok", .bool true), ("base_url", .str FMP_BASE_URL)])

/-- `when_should_i_use_fmp()` (source lines 542-570): returns a fixed
guidance dict with no outbound call. -/
def when_should_i_use_fmp : ToolAction :=
  .static (.obj [
    ("use_when", .arr [
      .str "You need fundamentals/ratios/statements for a ticker",
      .str "You need OHLCV daily prices",
      .str "You need earnings transcripts text",
      .str "You need macro indicators or economic calendar",
      .str "You need latest stock news or insider trades"]),
    ("avoid_when", .arr [
      .str "Trading/execution actions",
      .str "Full SEC filings beyond transcripts",
      .str "Realtime tick/quote level market data"]),
    ("quick_map", .obj [
      ("snapshot", .str "company_profile"),
      ("pnl", .str "income_statement"),
      ("balance", .str "balance_sheet"),
      ("cash", .str "cash_flow"),
      ("ratios", .str "financial_ratios"),
      ("prices", .str "historical_price_eod_full"),
      ("transcript", .str "earnings_call_transcript"),
      ("macro", .str "economic_indicators"),
      ("calendar", .str "economic_calendar"),
      ("news", .str "stock_news_latest / stock_news_search"),
      ("insiders", .str "insider_trading_latest")])])

/-! ### Heap-level model of the parameter setup (lines 51-52)

To settle the frame claim about mutation of the caller-supplied dict,
the first two statements of `fmp_api_request` are also modelled at the
level of a store of dict objects, where `params.copy()` allocates a new
object and `params["apikey"] = ...` mutates an object in place. -/

/-- A store of dict objects, addressed by allocation index. -/
abbrev Store := List PDict

/-- Allocate a fresh dict object holding `d`; returns its address. -/
def allocDict (s : Store) (d : PDict) : Store × Nat := (s ++ [d], s.length)

/-- Read the dict object at an address. -/
def readDict (s : Store) (r : Nat) : PDict := s.getD r []

/-- In-place item assignment `s[r][k] = v` on the object at address `r`. -/
def writeKey (s : Store) (r : Nat) (k : String) (v : Json) : Store :=
  s.set r (setKey (readDict s r) k v)

/-- Heap-level model of lines 51-52 of `fmp_api_request`:

    params = params.copy() if params else {}
    params["apikey"] = api_key or DEFAULT_API_KEY

`paramsRef` is the address of the caller-supplied dict (or `none` for a
`None` argument); a non-empty dict is truthy and gets copied, otherwise
a fresh empty dict is used. Returns the new store and the address of the
dict that will be dispatched. -/
def fmp_params_setup (s : Store) (paramsRef : Option Nat)
    (api_key : Option String) (defaultKey : String) : Store × Nat :=
  let (s1, r1) := match paramsRef with
    | some r =>
        if (readDict s r).isEmpty then allocDict s [] else allocDict s (readDict s r)
    | none => allocDict s []
  (writeKey s1 r1 "apikey" (.str (pyOr api_key defaultKey)), r1)

/-! ### The richer response variant -/

/-- The cardinality signal: the length of a list payload, else 1. -/
def jsonCount : Json → Int
  | .arr xs => xs.length
  | _ => 1

/-- Modelled from the spec: the richer response variant of the Request
Normalizer (the second, near-identical source file of the repository,
not present under src/). Per the spec, every successful invocation
additionally wraps the payload as an ok-flag / payload / count object,
where count is the list length when the payload is a list and 1
otherwise, and every failure additionally carries the ok-flag false and
an empty-list payload alongside the error kind and message. -/
def richWrap : FmpResult → Json
  | .success b =>
      .obj [("ok", .bool true), ("payload", b), ("count", .num (jsonCount b))]
  | .failure e m =>
      .obj [("ok", .bool false), ("payload", .arr []),
            ("error", .str e), ("message", .str m)]

/-- Modelled from the spec: the richer variant of `fmp_api_request`,
identical to the minimal one except that its result is wrapped by
`richWrap`. -/
def fmp_api_request_rich (defaultKey : String) (endpoint : String)
    (params : Option PDict) (api_key : Option String)
    (upstream : UpstreamEvent) : FmpRequest × Json :=
  let (req, res) := fmp_api_request defaultKey endpoint params api_key upstream
  (req, richWrap res)

/-! ### Helper lemmas on dict operations -/

theorem dlookup_setKey_self (p : PDict) (k : String) (v : Json) :
    dlookup (setKey p k v) k = some v := by
  induction p with
  | nil => simp [setKey, dlookup]
  | cons hd tl ih =>
      obtain ⟨k0, v0⟩ := hd
      by_cases h : k0 = k <;> simp [setKey, dlookup, h, ih]

theorem dlookup_setKey_ne (p : PDict) (k k0 : String) (v : Json)
    (h : k0 ≠ k) : dlookup (setKey p k v) k0 = dlookup p k0 := by
  have hne : k ≠ k0 := fun e => h e.symm
  induction p with
  | nil => simp [setKey, dlookup, hne]
  | cons hd tl ih =>
      obtain ⟨k1, v1⟩ := hd
      by_cases h1 : k1 = k
      · subst h1
        simp [setKey, dlookup, hne]
      · by_cases h2 : k1 = k0 <;> simp [setKey, dlookup, h1, h2, h, ih]

theorem mem_dkeys_setKey (p : PDict) (k key : String) (v : Json)
    (h : key ∈ dkeys (setKey p k v)) : key ∈ dkeys p ∨ key = k := by
  induction p with
  | nil => simp [setKey, dkeys] at h; exact Or.inr h
  | cons hd tl ih =>
      obtain ⟨k1, v1⟩ := hd
      by_cases h1 : k1 = k
      · subst h1
        simp [setKey, dkeys] at h ⊢
        tauto
      · simp [setKey, dkeys, h1] at h ⊢
        rcases h with h | h
        · exact Or.inl (Or.inl h)
        · rcases ih (by simpa [dkeys] using h) with h2 | h2
          · exact Or.inl (Or.inr (by simpa [dkeys] using h2))
          · exact Or.inr h2

theorem not_mem_dkeys_optAdd (p : PDict) (k key : String)
    (d : Option String) (v : Json) (hk : key ≠ k) (hp : key ∉ dkeys p) :
    key ∉ dkeys (if pyTruthyStr d then setKey p k v else p) := by
  split
  · intro hmem
    rcases mem_dkeys_setKey p k key v hmem with h | h
    · exact hp h
    · exact hk h
  · exact hp

theorem httpPrefix_ne_requestError (x : String) :
    "HTTP error: " ++ x ≠ "Request error" := by
  intro h
  have h2 : ("HTTP error: " ++ x).data = "Request error".data := by rw [h]
  rw [String.data_append] at h2
  have e1 : "HTTP error: ".data
      = ['H','T','T','P',' ','e','r','r','o','r',':',' '] := rfl
  have e2 : "Request error".data
      = ['R','e','q','u','e','s','t',' ','e','r','r','o','r'] := rfl
  rw [e1, e2] at h2
  simp at h2

theorem httpPrefix_ne_unknownError (x : String) :
    "HTTP error: " ++ x ≠ "Unknown error" := by
  intro h
  have h2 : ("HTTP error: " ++ x).data = "Unknown error".data := by rw [h]
  rw [String.data_append] at h2
  have e1 : "HTTP error: ".data
      = ['H','T','T','P',' ','e','r','r','o','r',':',' '] := rfl
  have e2 : "Unknown error".data
      = ['U','n','k','n','o','w','n',' ','e','r','r','o','r'] := rfl
  rw [e1, e2] at h2
  simp at h2

theorem fmp_status_failure (dk ep : String) (ps : Option PDict)
    (ak : Option String) (status : Nat) (body : Except String Json)
    (t : String) (h : ¬ (200 ≤ status ∧ status < 300)) :
    (fmp_api_request dk ep ps ak (.respond status body t)).2
      = .failure ("HTTP error: " ++ toString status) t := by
  simp only [fmp_api_request]
  rw [if_neg h]

theorem fmp_parse_failure (dk ep : String) (ps : Option PDict)
    (ak : Option String) (status : Nat) (msg t : String)
    (h1 : 200 ≤ status) (h2 : status < 300) :
    (fmp_api_request dk ep ps ak (.respond status (.error msg) t)).2
      = .failure "Unknown error" msg := by
  simp only [fmp_api_request]
  rw [if_pos ⟨h1, h2⟩]

theorem fmp_success (dk ep : String) (ps : Option PDict)
    (ak : Option String) (status : Nat) (b : Json) (t : String)
    (h1 : 200 ≤ status) (h2 : status < 300) :
    (fmp_api_request dk ep ps ak (.respond status (.ok b) t)).2
      = .success b := by
  simp only [fmp_api_request]
  rw [if_pos ⟨h1, h2⟩]

theorem dkeys_setKey_fresh (p : PDict) (k : String) (v : Json)
    (h : k ∉ dkeys p) : dkeys (setKey p k v) = dkeys p ++ [k] := by
  induction p with
  | nil => simp [setKey, dkeys]
  | cons hd tl ih =>
      obtain ⟨k1, v1⟩ := hd
      simp only [dkeys, List.map_cons, List.mem_cons] at h ih ⊢
      have h1 : k1 ≠ k := fun e => h (Or.inl e.symm)
      simp [setKey, h1, dkeys, ih (fun e => h (Or.inr e))]

/-! ### Claim theorems -/

/-- Claim C1: for every invocation of `fmp_api_request`, no exception
propagates to the caller: every failing upstream behavior (status check,
transport failure, other exception, or malformed JSON in a successful
response) yields a failure envelope, whose error kind is exactly one of
the three forms produced by the three exception branches (http, request,
unknown), pairwise distinct, with status errors classified as http
errors, transport errors as request errors, and anything else (including
malformed JSON) as unknown errors. -/
theorem fmp_api_request_failure_taxonomy (dk ep : String)
    (ps : Option PDict) (ak : Option String) :
    (∀ status body t, ¬ (200 ≤ status ∧ status < 300) →
      (fmp_api_request dk ep ps ak (.respond status body t)).2
        = .failure ("HTTP error: " ++ toString status) t)
    ∧ (∀ isT t, (fmp_api_request dk ep ps ak (.transportFail isT t)).2
        = .failure "Request error" t)
    ∧ (∀ t, (fmp_api_request dk ep ps ak (.otherFail t)).2
        = .failure "Unknown error" t)
    ∧ (∀ status msg t, 200 ≤ status → status < 300 →
      (fmp_api_request dk ep ps ak (.respond status (.error msg) t)).2
        = .failure "Unknown error" msg)
    ∧ (∀ up e m, (fmp_api_request dk ep ps ak up).2 = .failure e m →
        (∃ c : Nat, e = "HTTP error: " ++ toString c)
          ∨ e = "Request error" ∨ e = "Unknown error")
    ∧ (∀ c : Nat, "HTTP error: " ++ toString c ≠ "Request error"
        ∧ "HTTP error: " ++ toString c ≠ "Unknown error"
        ∧ ("Request error" : String) ≠ "Unknown error") := by
  refine ⟨fun st b t h => fmp_status_failure dk ep ps ak st b t h,
    fun isT t => rfl, fun t => rfl,
    fun st m t h1 h2 => fmp_parse_failure dk ep ps ak st m t h1 h2,
    ?_, fun c => ⟨httpPrefix_ne_requestError _, httpPrefix_ne_unknownError _,
      by decide⟩⟩
  intro up e m h
  cases up with
  | respond st b t =>
      by_cases h2 : 200 ≤ st ∧ st < 300
      · cases b with
        | ok j =>
            rw [fmp_success dk ep ps ak st j t h2.1 h2.2] at h
            exact absurd h (by intro h3; cases h3)
        | error msg =>
            rw [fmp_parse_failure dk ep ps ak st msg t h2.1 h2.2] at h
            cases h
            exact Or.inr (Or.inr rfl)
      · rw [fmp_status_failure dk ep ps ak st b t h2] at h
        cases h
        exact Or.inl ⟨st, rfl⟩
  | transportFail isT t =>
      cases h
      exact Or.inr (Or.inl rfl)
  | otherFail t =>
      cases h
      exact Or.inr (Or.inr rfl)

/-- Witness for C1: a concrete 404 response, a concrete timeout and a
concrete malformed-JSON body all yield the classified failure envelopes. -/
theorem fmp_api_request_failure_taxonomy_witness :
    (fmp_api_request "demo" "profile" none none
        (.respond 404 (.ok .null) "not found")).2
      = .failure ("HTTP error: " ++ toString 404) "not found"
    ∧ (fmp_api_request "demo" "profile" none none
        (.respond 200 (.error "bad json") "")).2
      = .failure "Unknown error" "bad json" :=
  ⟨(fmp_api_request_failure_taxonomy "demo" "profile" none none).1
      404 (.ok .null) "not found" (by decide),
   (fmp_api_request_failure_taxonomy "demo" "profile" none none).2.2.2.1
      200 "bad json" "" (by decide) (by decide)⟩

/-- Claim C4: a non-2xx upstream status yields, without raising, the
http-error failure envelope whose error text carries the textual status
code (`"HTTP error: 404"` for a 404) and whose message field is the
textual representation of the raised status exception. -/
theorem fmp_api_request_404_envelope (dk ep : String)
    (ps : Option PDict) (ak : Option String) :
    (∀ status body t, ¬ (200 ≤ status ∧ status < 300) →
      (fmp_api_request dk ep ps ak (.respond status body t)).2
        = .failure ("HTTP error: " ++ toString status) t)
    ∧ (∀ body t, (fmp_api_request dk ep ps ak (.respond 404 body t)).2
        = .failure "HTTP error: 404" t)
    ∧ toString (404 : Nat) = "404" := by
  refine ⟨fun st b t h => fmp_status_failure dk ep ps ak st b t h,
    fun b t => ?_, rfl⟩
  have h := fmp_status_failure dk ep ps ak 404 b t (by decide)
  simpa using h

/-- Witness for C4: the concrete 404 instance. -/
theorem fmp_api_request_404_envelope_witness :
    (fmp_api_request "demo" "income-statement" none none
        (.respond 500 (.ok .null) "server error")).2
      = .failure ("HTTP error: " ++ toString 500) "server error" :=
  (fmp_api_request_404_envelope "demo" "income-statement" none none).1
    500 (.ok .null) "server error" (by decide)

/-- Claim C5: every dispatched request carries the fixed timeout of 30
time-units, and a timeout (a species of transport error caught by the
`httpx.RequestError` branch) resolves to the request-error envelope,
which is distinct from the unknown-error envelope. -/
theorem fmp_api_request_timeout_behavior (dk ep : String)
    (ps : Option PDict) (ak : Option String) :
    (∀ up, (fmp_api_request dk ep ps ak up).1.timeout = 30)
    ∧ (∀ t, (fmp_api_request dk ep ps ak (.transportFail true t)).2
        = .failure "Request error" t)
    ∧ (∀ isT t, (fmp_api_request dk ep ps ak (.transportFail isT t)).2
        = .failure "Request error" t)
    ∧ ("Request error" : String) ≠ "Unknown error" :=
  ⟨fun _ => rfl, fun _ => rfl, fun _ _ => rfl, by decide⟩

/-- Claim C2: the dispatched query-parameter mapping always contains the
authentication parameter `apikey`, set before dispatch to the supplied
key (or the process-wide default via Python `or`); and the value of a
successful invocation is the upstream JSON body passed through
unchanged, so whenever that body does not carry an `apikey` key, neither
does the returned envelope. -/
theorem fmp_api_request_apikey_injection (dk ep : String)
    (ps : Option PDict) (ak : Option String) :
    (∀ up, dlookup ((fmp_api_request dk ep ps ak up).1.params) "apikey"
        = some (.str (pyOr ak dk)))
    ∧ (∀ status b t, 200 ≤ status → status < 300 →
        (fmp_api_request dk ep ps ak (.respond status (.ok b) t)).2
          = .success b)
    ∧ (∀ status b t, 200 ≤ status → status < 300 →
        jsonObjLookup b "apikey" = none →
        ∀ r, (fmp_api_request dk ep ps ak (.respond status (.ok b) t)).2
            = .success r →
          jsonObjLookup r "apikey" = none) := by
  refine ⟨fun up => dlookup_setKey_self _ _ _,
    fun st b t h1 h2 => fmp_success dk ep ps ak st b t h1 h2,
    fun st b t h1 h2 hb r hr => ?_⟩
  rw [fmp_success dk ep ps ak st b t h1 h2] at hr
  cases hr
  exact hb

/-- Witness for C2: a concrete successful call whose upstream body has
no `apikey` key; the returned envelope has none either, while the
dispatched parameters carry the injected key. -/
theorem fmp_api_request_apikey_injection_witness :
    dlookup ((fmp_api_request "demo" "profile"
        (some [("symbol", Json.str "AAPL")]) (some "k1")
        (.respond 200 (.ok (.obj [("price", .num 100)])) "")).1.params)
      "apikey" = some (.str (pyOr (some "k1") "demo"))
    ∧ jsonObjLookup (Json.obj [("price", Json.num 100)]) "apikey" = none
    ∧ ∀ r, (fmp_api_request "demo" "profile"
          (some [("symbol", Json.str "AAPL")]) (some "k1")
          (.respond 200 (.ok (.obj [("price", .num 100)])) "")).2
        = .success r → jsonObjLookup r "apikey" = none :=
  ⟨(fmp_api_request_apikey_injection "demo" "profile"
      (some [("symbol", Json.str "AAPL")]) (some "k1")).1
      (.respond 200 (.ok (.obj [("price", .num 100)])) ""),
   rfl,
   (fmp_api_request_apikey_injection "demo" "profile"
      (some [("symbol", Json.str "AAPL")]) (some "k1")).2.2
      200 (.obj [("price", .num 100)]) "" (by decide) (by decide) rfl⟩

/-- Claim C3: in every tool with nullable optional parameters, an
optional argument left unset (passed as `None`) leaves the
corresponding key entirely absent from the built query-parameter
mapping, whatever the other arguments are; in particular
`historical_price_eod_full("AAPL")` builds exactly `{symbol: "AAPL"}`
with no `from`/`to` keys. -/
theorem optional_params_omitted_when_unset :
    (∀ sym dto, "from" ∉
      dkeys (historical_price_eod_full sym none dto).paramsOf)
    ∧ (∀ sym dfrom, "to" ∉
      dkeys (historical_price_eod_full sym dfrom none).paramsOf)
    ∧ (∀ sym y q, "limit" ∉
      dkeys (earnings_call_transcript sym y q none).paramsOf)
    ∧ (∀ nm dto, "from" ∉ dkeys (economic_indicators nm none dto).paramsOf)
    ∧ (∀ nm dfrom, "to" ∉ dkeys (economic_indicators nm dfrom none).paramsOf)
    ∧ (∀ dto, "from" ∉ dkeys (economic_calendar none dto).paramsOf)
    ∧ (∀ dfrom, "to" ∉ dkeys (economic_calendar dfrom none).paramsOf)
    ∧ (∀ pg lim dto, "from" ∉
      dkeys (stock_news_latest pg lim none dto).paramsOf)
    ∧ (∀ pg lim dfrom, "to" ∉
      dkeys (stock_news_latest pg lim dfrom none).paramsOf)
    ∧ (∀ syms pg lim dto, "from" ∉
      dkeys (stock_news_search syms pg lim none dto).paramsOf)
    ∧ (∀ syms pg lim dfrom, "to" ∉
      dkeys (stock_news_search syms pg lim dfrom none).paramsOf)
    ∧ (∀ pg lim, "date" ∉ dkeys (insider_trading_latest pg lim none).paramsOf)
    ∧ historical_price_eod_full "AAPL"
        = .net "historical-price-eod/full" [("symbol", .str "AAPL")] := by
  refine ⟨?_, ?_, ?_, ?_, ?_, ?_, ?_, ?_, ?_, ?_, ?_, ?_, rfl⟩
  · intro sym dto
    exact not_mem_dkeys_optAdd [("symbol", Json.str sym)] "to" "from" dto
      (Json.str (dto.getD "")) (by decide) (by simp [dkeys])
  · intro sym dfrom
    exact not_mem_dkeys_optAdd [("symbol", Json.str sym)] "from" "to" dfrom
      (Json.str (dfrom.getD "")) (by decide) (by simp [dkeys])
  · intro sym y q
    simp [earnings_call_transcript, ToolAction.paramsOf, dkeys]
  · intro nm dto
    exact not_mem_dkeys_optAdd [("name", Json.str nm)] "to" "from" dto
      (Json.str (dto.getD "")) (by decide) (by simp [dkeys])
  · intro nm dfrom
    exact not_mem_dkeys_optAdd [("name", Json.str nm)] "from" "to" dfrom
      (Json.str (dfrom.getD "")) (by decide) (by simp [dkeys])
  · intro dto
    exact not_mem_dkeys_optAdd [] "to" "from" dto
      (Json.str (dto.getD "")) (by decide) (by simp [dkeys])
  · intro dfrom
    exact not_mem_dkeys_optAdd [] "from" "to" dfrom
      (Json.str (dfrom.getD "")) (by decide) (by simp [dkeys])
  · intro pg lim dto
    exact not_mem_dkeys_optAdd [("page", Json.num pg), ("limit", Json.num lim)]
      "to" "from" dto (Json.str (dto.getD "")) (by decide) (by simp [dkeys])
  · intro pg lim dfrom
    exact not_mem_dkeys_optAdd [("page", Json.num pg), ("limit", Json.num lim)]
      "from" "to" dfrom (Json.str (dfrom.getD "")) (by decide) (by simp [dkeys])
  · intro syms pg lim dto
    exact not_mem_dkeys_optAdd
      [("symbols", Json.str syms), ("page", Json.num pg), ("limit", Json.num lim)]
      "to" "from" dto (Json.str (dto.getD "")) (by decide) (by simp [dkeys])
  · intro syms pg lim dfrom
    exact not_mem_dkeys_optAdd
      [("symbols", Json.str syms), ("page", Json.num pg), ("limit", Json.num lim)]
      "from" "to" dfrom (Json.str (dfrom.getD "")) (by decide) (by simp [dkeys])
  · intro pg lim
    simp [insider_trading_latest, pyTruthyStr, ToolAction.paramsOf, dkeys]

/-- Claim C6: `income_statement("AAPL", 5, "annual")` builds the mapping
`{symbol: "AAPL", limit: 5, period: "annual"}` against the path
`income-statement`, and the declared defaults are `limit = 5` and
`period = "annual"`. -/
theorem income_statement_request_shape :
    income_statement "AAPL" 5 "annual"
      = .net "income-statement"
          [("symbol", .str "AAPL"), ("limit", .num 5),
           ("period", .str "annual")]
    ∧ income_statement "AAPL" = income_statement "AAPL" 5 "annual"
    ∧ ∀ sym, income_statement sym
        = .net "income-statement"
            [("symbol", .str sym), ("limit", .num 5),
             ("period", .str "annual")] :=
  ⟨rfl, rfl, fun _ => rfl⟩

/-- Claim C7: when the environment variable is absent at startup, the
process-wide default key evaluates to the constrained `"demo"`
credential (no startup failure), and that credential is injected as the
authentication parameter of every call that supplies no explicit key. -/
theorem missing_env_key_falls_back_to_demo :
    DEFAULT_API_KEY none = "demo"
    ∧ (∀ ep ps up,
        dlookup ((fmp_api_request (DEFAULT_API_KEY none) ep ps none up).1.params)
          "apikey" = some (.str "demo")) :=
  ⟨rfl, fun _ep _ps _up => dlookup_setKey_self _ _ _⟩

/-- Claim C8: `ping` and `when_should_i_use_fmp` are static tools: their
bodies return fixed constant structures (so any two invocations return
equal values) and never delegate to `fmp_api_request` with a network
request. -/
theorem static_tools_no_network :
    ping = .static (.obj [("ok", .bool true), ("base_url", .str FMP_BASE_URL)])
    ∧ (∃ v, when_should_i_use_fmp = .static v)
    ∧ (∀ e p, ping ≠ .net e p)
    ∧ (∀ e p, when_should_i_use_fmp ≠ .net e p)
    ∧ jsonObjLookup
        (Json.obj [("ok", .bool true), ("base_url", .str FMP_BASE_URL)]) "ok"
      = some (.bool true) := by
  exact ⟨rfl, ⟨_, rfl⟩, fun e p h => ToolAction.noConfusion h,
    fun e p h => ToolAction.noConfusion h, rfl⟩

/-- Claim C9: in the richer response variant (modelled from the spec),
every successful invocation wraps the payload as an object with the
ok-flag true, the payload, and a count equal to the list length when the
payload is a list and 1 otherwise; and every failure carries the
ok-flag false and an empty-list payload. -/
theorem rich_variant_envelope_shape (dk ep : String)
    (ps : Option PDict) (ak : Option String) :
    (∀ status b t, 200 ≤ status → status < 300 →
      (fmp_api_request_rich dk ep ps ak (.respond status (.ok b) t)).2
        = .obj [("ok", .bool true), ("payload", b),
                ("count", .num (jsonCount b))])
    ∧ (∀ xs : List Json, jsonCount (.arr xs) = xs.length)
    ∧ (∀ b : Json, (∀ xs, b ≠ .arr xs) → jsonCount b = 1)
    ∧ (∀ up e m, (fmp_api_request dk ep ps ak up).2 = .failure e m →
        (fmp_api_request_rich dk ep ps ak up).2
          = .obj [("ok", .bool false), ("payload", .arr []),
                  ("error", .str e), ("message", .str m)]) := by
  refine ⟨fun st b t h1 h2 => ?_, fun xs => rfl, fun b hb => ?_, ?_⟩
  · show richWrap (fmp_api_request dk ep ps ak (.respond st (.ok b) t)).2 = _
    rw [fmp_success dk ep ps ak st b t h1 h2]
    rfl
  · cases b with
    | arr xs => exact absurd rfl (hb xs)
    | null => rfl
    | bool v => rfl
    | num n => rfl
    | str s => rfl
    | obj kvs => rfl
  · intro up e m h
    show richWrap (fmp_api_request dk ep ps ak up).2 = _
    rw [h]
    rfl

/-- Witness for C9: a concrete successful list response is wrapped with
ok-flag true and count 2, and a concrete transport failure is wrapped
with ok-flag false and an empty-list payload. -/
theorem rich_variant_envelope_shape_witness :
    (fmp_api_request_rich "demo" "profile" none none
        (.respond 200 (.ok (.arr [.null, .null])) "")).2
      = .obj [("ok", .bool true), ("payload", .arr [.null, .null]),
              ("count", .num (jsonCount (.arr [.null, .null])))]
    ∧ (∀ xs, Json.null ≠ Json.arr xs) ∧ jsonCount .null = 1
    ∧ (fmp_api_request_rich "demo" "profile" none none
        (.transportFail true "timed out")).2
      = .obj [("ok", .bool false), ("payload", .arr []),
              ("error", .str "Request error"),
              ("message", .str "timed out")] :=
  ⟨(rich_variant_envelope_shape "demo" "profile" none none).1
      200 (.arr [.null, .null]) "" (by decide) (by decide),
   fun xs h => Json.noConfusion h,
   (rich_variant_envelope_shape "demo" "profile" none none).2.2.1
      .null (fun xs h => Json.noConfusion h),
   (rich_variant_envelope_shape "demo" "profile" none none).2.2.2
      (.transportFail true "timed out") "Request error" "timed out" rfl⟩

theorem readDict_append_lt (s : Store) (d : PDict) (r : Nat)
    (h : r < s.length) : readDict (s ++ [d]) r = readDict s r := by
  simp [readDict, List.getD_eq_getElem?_getD, List.getElem?_append, h]

theorem readDict_append_self (s : Store) (d : PDict) :
    readDict (s ++ [d]) s.length = d := by
  simp [readDict, List.getD_eq_getElem?_getD, List.getElem?_append]

theorem readDict_set_ne (s : Store) (d' : PDict) (n r : Nat) (h : n ≠ r) :
    readDict (s.set n d') r = readDict s r := by
  simp [readDict, List.getD_eq_getElem?_getD, List.getElem?_set_ne h]

theorem readDict_set_self (s : Store) (d' : PDict) (n : Nat)
    (h : n < s.length) : readDict (s.set n d') n = d' := by
  simp [readDict, List.getD_eq_getElem?_getD, List.getElem?_set_self, h]

theorem writeKey_fresh_spec (s : Store) (d : PDict) (r : Nat)
    (k : String) (v : Json) (h : r < s.length) :
    readDict (writeKey (s ++ [d]) s.length k v) r = readDict s r
    ∧ readDict (writeKey (s ++ [d]) s.length k v) s.length = setKey d k v := by
  constructor
  · rw [writeKey, readDict_set_ne _ _ _ _ (fun e => Nat.ne_of_lt h e.symm)]
    exact readDict_append_lt s d r h
  · rw [writeKey, readDict_set_self _ _ _ (by simp), readDict_append_self]

/-- Claim C10: `fmp_api_request` copies the caller-supplied params dict
before injecting the authentication key, so the object the caller passed
is unchanged by the call (in particular it never gains an `apikey` key),
while the dispatched copy carries the injected key and agrees with the
original dict on every other key. Stated over the heap-level model
`fmp_params_setup` of lines 51-52 of the source. -/
theorem params_dict_not_mutated (s : Store) (r : Nat) (ak : Option String)
    (dk : String) (h : r < s.length) :
    readDict (fmp_params_setup s (some r) ak dk).1 r = readDict s r
    ∧ dlookup (readDict (fmp_params_setup s (some r) ak dk).1
        (fmp_params_setup s (some r) ak dk).2) "apikey"
      = some (.str (pyOr ak dk))
    ∧ (∀ k, k ≠ "apikey" →
        dlookup (readDict (fmp_params_setup s (some r) ak dk).1
          (fmp_params_setup s (some r) ak dk).2) k
        = dlookup (readDict s r) k) := by
  by_cases hemp : (readDict s r).isEmpty = true
  · have hE : readDict s r = [] := List.isEmpty_iff.mp hemp
    have hstep : fmp_params_setup s (some r) ak dk
        = (writeKey (s ++ [[]]) s.length "apikey" (.str (pyOr ak dk)),
           s.length) := by
      simp [fmp_params_setup, hemp, allocDict]
    rw [hstep]
    obtain ⟨h1, h2⟩ := writeKey_fresh_spec s [] r "apikey"
      (.str (pyOr ak dk)) h
    refine ⟨h1, ?_, ?_⟩
    · rw [h2]; exact dlookup_setKey_self _ _ _
    · intro k hk
      rw [h2, dlookup_setKey_ne _ _ _ _ hk, hE]
  · have hstep : fmp_params_setup s (some r) ak dk
        = (writeKey (s ++ [readDict s r]) s.length "apikey"
            (.str (pyOr ak dk)), s.length) := by
      simp [fmp_params_setup, hemp, allocDict]
    rw [hstep]
    obtain ⟨h1, h2⟩ := writeKey_fresh_spec s (readDict s r) r "apikey"
      (.str (pyOr ak dk)) h
    refine ⟨h1, ?_, ?_⟩
    · rw [h2]; exact dlookup_setKey_self _ _ _
    · intro k hk
      rw [h2, dlookup_setKey_ne _ _ _ _ hk]

/-- Witness for C10: a concrete store holding one caller dict; after the
setup the caller dict is unchanged and the dispatched copy carries the
injected demo key. -/
theorem params_dict_not_mutated_witness :
    0 < ([[("symbol", Json.str "AAPL")]] : Store).length
    ∧ (readDict (fmp_params_setup [[("symbol", Json.str "AAPL")]]
          (some 0) none "demo").1 0
        = readDict [[("symbol", Json.str "AAPL")]] 0
      ∧ dlookup (readDict (fmp_params_setup [[("symbol", Json.str "AAPL")]]
            (some 0) none "demo").1
          (fmp_params_setup [[("symbol", Json.str "AAPL")]]
            (some 0) none "demo").2) "apikey"
        = some (.str (pyOr none "demo"))
      ∧ (∀ k, k ≠ "apikey" →
          dlookup (readDict (fmp_params_setup [[("symbol", Json.str "AAPL")]]
              (some 0) none "demo").1
            (fmp_params_setup [[("symbol", Json.str "AAPL")]]
              (some 0) none "demo").2) k
          = dlookup (readDict [[("symbol", Json.str "AAPL")]] 0) k)) :=
  ⟨by decide,
   params_dict_not_mutated [[("symbol", Json.str "AAPL")]] 0 none "demo"
     (by decide)⟩

end FmpMcp
